import Mathlib

/-!
Shallow embedding of `src/esshader.c` (the esshader repository).

The program drives an OpenGL ES 2 fragment shader in an X11 window.  All
graphics and windowing side effects are modelled as an explicit trace of
`GLCall` events; the process-global mutable variables that the claims touch
(`viewport_width`, `viewport_height`, `frames`) form `MutState`, and the
uniform/attribute locations resolved once at startup form `Locations`.
`float`/`double` quantities are modelled exactly in `ℚ` (the C values are
exact conversions of small integers or exact nanosecond arithmetic; the
claims under study are order and identity facts preserved by rounding).
C `int`/`GLint`/`GLsizei`/`long` are modelled as `Int` (no claim reaches
the 2^31 overflow boundary, where the C program's behaviour is undefined).
-/

namespace Esshader

/-- `struct timespec`: seconds and nanoseconds fields, as used by
`clock_gettime(CLOCK_MONOTONIC, ...)` in `monotonic_time`. -/
structure Timespec where
  tv_sec : Int
  tv_nsec : Int
deriving DecidableEq

/-- One graphics/windowing side effect issued by the program.  Constructors
mirror the library calls appearing in `resize_viewport`, `render` and
`shutdown` in `esshader.c`; the payloads are the call's data arguments. -/
inductive GLCall where
  | glUniform3f (loc : Int) (x y z : ℚ)
  | glViewport (x y w h : Int)
  | glUniform1f (loc : Int) (v : ℚ)
  | glClearColor (r g b a : ℚ)
  | glClear
  | glEnableVertexAttribArray (a : Int)
  | glVertexAttribPointer (a : Int)
  | glDrawArrays
  | eglSwapBuffers
  | glDeleteProgram
  | eglDestroyContext
  | eglDestroySurface
  | eglTerminate
  | xDestroyWindow
  | xCloseDisplay
deriving DecidableEq

/-- The mutable globals of `esshader.c` that the render/resize/event code
reads and writes: `viewport_width`, `viewport_height` (both initialized to
`-1`, lines 48-49) and `frames` (initialized to `0`, line 61). -/
structure MutState where
  viewport_width : Int
  viewport_height : Int
  frames : Int
deriving DecidableEq

/-- The attribute/uniform locations resolved by `glGetAttribLocation` /
`glGetUniformLocation` after linking (lines 256-268).  A negative value is
GL's "not an active uniform" sentinel. -/
structure Locations where
  attrib_position : Int
  uniform_res : Int
  uniform_frame : Int
  uniform_gtime : Int
  uniform_cres : Int
  uniform_ctime : Int
  uniform_date : Int
  uniform_mouse : Int
  uniform_srate : Int
deriving DecidableEq

/-- `timespec_diff` (lines 81-93): difference `stop - start` in seconds,
with the borrow from the nanosecond field handled explicitly.  The C code
returns a `double`; the value computed is exactly
`d.tv_sec + d.tv_nsec / 1e9`, which we keep exact in `ℚ`. -/
def timespec_diff (start stop : Timespec) : ℚ :=
  if stop.tv_nsec - start.tv_nsec < 0 then
    ((stop.tv_sec - start.tv_sec - 1 : Int) : ℚ)
      + ((stop.tv_nsec - start.tv_nsec + 1000000000 : Int) : ℚ) / 1000000000
  else
    ((stop.tv_sec - start.tv_sec : Int) : ℚ)
      + ((stop.tv_nsec - start.tv_nsec : Int) : ℚ) / 1000000000

/-- `resize_viewport` (lines 129-137): when the requested size differs from
the cached `viewport_width`/`viewport_height`, upload the resolution
uniform (z fixed at 0), set the viewport, and cache the new size;
otherwise do nothing. -/
def resize_viewport (locs : Locations) (s : MutState) (w h : Int) :
    MutState × List GLCall :=
  if s.viewport_width ≠ w ∨ s.viewport_height ≠ h then
    (⟨w, h, s.frames⟩,
     [GLCall.glUniform3f locs.uniform_res (w : ℚ) (h : ℚ) 0,
      GLCall.glViewport 0 0 w h])
  else (s, [])

/-- The unconditional tail of `render` (lines 332-337): clear to opaque
black, bind the full-screen quad and draw it, then present. -/
def draw_calls (locs : Locations) : List GLCall :=
  [GLCall.glClearColor 0 0 0 1,
   GLCall.glClear,
   GLCall.glEnableVertexAttribArray locs.attrib_position,
   GLCall.glVertexAttribPointer locs.attrib_position,
   GLCall.glDrawArrays,
   GLCall.eglSwapBuffers]

/-- `render` (lines 319-338): upload elapsed time only when
`uniform_gtime >= 0`; unconditionally increment `frames` and upload it to
`uniform_frame`; then clear, draw the quad, and swap buffers. -/
def render (locs : Locations) (s : MutState) (abstime : ℚ) :
    MutState × List GLCall :=
  let time_calls :=
    if 0 ≤ locs.uniform_gtime then
      [GLCall.glUniform1f locs.uniform_gtime abstime]
    else []
  (⟨s.viewport_width, s.viewport_height, s.frames + 1⟩,
   time_calls
     ++ GLCall.glUniform1f locs.uniform_frame ((s.frames + 1 : Int) : ℚ)
       :: draw_calls locs)

/-- X11 `XK_Escape` keysym. -/
def XK_Escape : Int := 65307

/-- X11 `XK_q` keysym. -/
def XK_q : Int := 113

/-- An X event as `process_event` distinguishes them: a `ConfigureNotify`
with its reported size, a `KeyPress` with the keysym `XLookupString`
decodes, or any other event type. -/
inductive XEvent where
  | configureNotify (width height : Int)
  | keyPress (key : Int)
  | other
deriving DecidableEq

/-- `process_event` (lines 285-303): a configure event triggers
`resize_viewport` with the event's size; a key press returns `false`
(request to stop) exactly when the key is Escape or `q`; everything else
is ignored.  Returns (continue?, new state, emitted calls). -/
def process_event (locs : Locations) (s : MutState) (ev : XEvent) :
    Bool × MutState × List GLCall :=
  match ev with
  | XEvent.configureNotify w h =>
      let r := resize_viewport locs s w h
      (true, r.1, r.2)
  | XEvent.keyPress key =>
      if key = XK_Escape ∨ key = XK_q then (false, s, []) else (true, s, [])
  | XEvent.other => (true, s, [])

/-- The body of `process_events`' drain loop (lines 309-314): every pending
event is dequeued and processed; `done` is latched to `true` when any
event's `process_event` returned `false`, but draining continues. -/
def process_events_aux (locs : Locations) (s : MutState) (done : Bool) :
    List XEvent → Bool × MutState × List GLCall
  | [] => (done, s, [])
  | ev :: rest =>
      let r := process_event locs s ev
      let k := process_events_aux locs r.2.1 (done || !r.1) rest
      (k.1, k.2.1, r.2.2 ++ k.2.2)

/-- `process_events` (lines 305-317): drain the whole queue, then return
`!done` — `false` means the main loop should stop. -/
def process_events (locs : Locations) (s : MutState) (evs : List XEvent) :
    Bool × MutState × List GLCall :=
  let r := process_events_aux locs s false evs
  (!r.1, r.2.1, r.2.2)

/-- `shutdown` (lines 276-283): the six teardown calls, in program order. -/
def shutdown_calls : List GLCall :=
  [GLCall.glDeleteProgram,
   GLCall.eglDestroyContext,
   GLCall.eglDestroySurface,
   GLCall.eglTerminate,
   GLCall.xDestroyWindow,
   GLCall.xCloseDisplay]

/-- The `for (;;)` loop of `main` (lines 432-438), driven by a finite
schedule: each iteration is given the batch of events `process_events`
drains and the `monotonic_time` sample taken after rendering.  `cur`
starts as whatever garbage the uninitialized local held (a parameter
here) and is only written *after* each `render`, exactly as in the C
code.  Returns (loop stopped?, final state, emitted calls); a `false`
first component means the schedule ran out while still RUNNING. -/
def mainLoop (locs : Locations) (start : Timespec) :
    MutState → Timespec → List (List XEvent × Timespec) →
      Bool × MutState × List GLCall
  | s, _, [] => (false, s, [])
  | s, cur, (evs, sample) :: rest =>
      let p := process_events locs s evs
      if p.1 then
        let r := render locs p.2.1 (timespec_diff start cur)
        let m := mainLoop locs start r.1 sample rest
        (m.1, m.2.1, p.2.2 ++ r.2 ++ m.2.2)
      else
        (true, p.2.1, p.2.2)

/-- `main`'s tail (lines 432-440): run the loop; when it breaks, `shutdown`
runs exactly once.  `none` when the schedule ends with the loop still
running (the process has not exited, so no teardown has happened). -/
def esshader_main (locs : Locations) (s : MutState) (start cur0 : Timespec)
    (stream : List (List XEvent × Timespec)) : Option (List GLCall) :=
  let m := mainLoop locs start s cur0 stream
  if m.1 then some (m.2.2 ++ shutdown_calls) else none

/-- `common_shader_header` (lines 16-18). -/
def common_shader_header : String :=
  "#version 100\nprecision highp float;"

/-- `fragment_shader_header` (lines 24-36): the fixed uniform-declaration
block. -/
def fragment_shader_header : String :=
  "uniform vec3 iResolution;uniform float iTime;uniform float iFrame;uniform float iChannelTime[4];uniform vec4 iMouse;uniform vec4 iDate;uniform float iSampleRate;uniform vec3 iChannelResolution[4];uniform sampler2D iChannel0;uniform sampler2D iChannel1;uniform sampler2D iChannel2;uniform sampler2D iChannel3;\n"

/-- `fragment_shader_footer` (lines 38-39): the fixed `main` that calls the
user's `mainImage`. -/
def fragment_shader_footer : String :=
  "\nvoid main()\x7bmainImage(gl_FragColor,gl_FragCoord.xy);\x7d"

/-- The four source strings `startup` passes to `compile_shader` for the
fragment stage (lines 226-230), in order. -/
def fragment_sources (body : String) : List String :=
  [common_shader_header, fragment_shader_header, body, fragment_shader_footer]

/-- `glShaderSource` semantics as used by `compile_shader` (lines 100-126):
the shader's source is the concatenation of the strings handed to it. -/
def assemble : List String → String
  | [] => ""
  | src :: rest => src ++ assemble rest

/-- The window-size computation in `startup` (lines 192-207): start from
the requested size; when `fullscreen` is set, override both dimensions
with the display's size; `XCreateWindow` then receives the result. -/
def created_window_size (width height : Int) (fullscreen : Bool)
    (display_width display_height : Int) : Int × Int :=
  let window_width := width
  let window_height := height
  if fullscreen then (display_width, display_height)
  else (window_width, window_height)

/-- The payload of a `glUniform1f` call when its location argument equals
`loc`, and `none` for every other call. -/
def uploadValue (loc : Int) : GLCall → Option ℚ
  | GLCall.glUniform1f l v => if l = loc then some v else none
  | _ => none

/-- The values uploaded by `glUniform1f` calls to location `loc` within a
trace, in order. -/
def uploadsTo (loc : Int) (calls : List GLCall) : List ℚ :=
  calls.filterMap (uploadValue loc)

/-- Whether `process_event` treats this event as an exit request: a key
press decoding to Escape or `q`. -/
def isExitEvent : XEvent → Bool
  | XEvent.keyPress k => if k = XK_Escape ∨ k = XK_q then true else false
  | _ => false

/-- Whether an event batch contains an exit key press. -/
def hasExit (evs : List XEvent) : Bool := evs.any isExitEvent

/-- Recognizes the draw call. -/
def isDraw : GLCall → Bool
  | GLCall.glDrawArrays => true
  | _ => false

/-- Number of `glDrawArrays` calls in a trace. -/
def countDraws (calls : List GLCall) : Nat := calls.countP isDraw

/-- Recognizes the six teardown calls of `shutdown`. -/
def isTeardown : GLCall → Bool
  | GLCall.glDeleteProgram => true
  | GLCall.eglDestroyContext => true
  | GLCall.eglDestroySurface => true
  | GLCall.eglTerminate => true
  | GLCall.xDestroyWindow => true
  | GLCall.xCloseDisplay => true
  | _ => false

/-- The traces of a sequence of successive `render` calls, one trace per
call, threading `frames` through. -/
def renderTraces (locs : Locations) : MutState → List ℚ → List (List GLCall)
  | _, [] => []
  | s, t :: rest =>
      (render locs s t).2 :: renderTraces locs (render locs s t).1 rest

/-- The state after a sequence of successive `render` calls. -/
def renderFinal (locs : Locations) : MutState → List ℚ → MutState
  | s, [] => s
  | s, t :: rest => renderFinal locs (render locs s t).1 rest

/-- Specification-side drain: process *every* event of the queue in order,
unconditionally, collecting state updates and calls.  `process_events` is
compared against this to show the drain never stops early. -/
def drainAll (locs : Locations) : MutState → List XEvent → MutState × List GLCall
  | s, [] => (s, [])
  | s, ev :: rest =>
      let r := process_event locs s ev
      let d := drainAll locs r.2.1 rest
      (d.1, r.2.2 ++ d.2)

/-- A location assignment in which every uniform is absent (`-1`), as when
a shader references none of the built-in uniforms. -/
def locsN : Locations := ⟨0, -1, -1, -1, -1, -1, -1, -1, -1⟩

/-- A location assignment with distinct valid locations for the time (0),
frame (1) and resolution (2) uniforms. -/
def locsT : Locations := ⟨3, 2, 1, 0, -1, -1, -1, -1, -1⟩

/-- C7: for every user-supplied fragment body, the assembled fragment
shader source is exactly the common header, then the fixed
uniform-declaration block, then the user body, then the fixed footer whose
`main` calls `mainImage`, concatenated in that order with nothing else. -/
theorem fragment_shader_assembly (body : String) :
    assemble (fragment_sources body)
      = common_shader_header ++ fragment_shader_header ++ body
          ++ fragment_shader_footer := by
  simp [assemble, fragment_sources, String.append_empty, String.append_assoc]

/-- C8: with the fullscreen flag set, the window is created at the
display's full size and the requested size is ignored; without it, the
window is created at the requested size.  In particular a 640x360 request
on a 1920x1080 display yields a 1920x1080 window, not 640x360. -/
theorem fullscreen_override (width height display_width display_height : Int) :
    created_window_size width height true display_width display_height
        = (display_width, display_height)
      ∧ created_window_size width height false display_width display_height
          = (width, height)
      ∧ created_window_size 640 360 true 1920 1080 = (1920, 1080)
      ∧ created_window_size 640 360 true 1920 1080 ≠ (640, 360) := by
  refine ⟨rfl, rfl, rfl, ?_⟩
  decide

/-- C2: a second `resize_viewport` with the size just applied is a no-op
(no calls, state unchanged); after any call the cached size equals the
requested size; and from the initial `(-1, -1)` sentinel, the first call
with a non-negative size performs the resolution upload, the viewport
call and the cache update. -/
theorem resize_viewport_dedup (locs : Locations) (s : MutState) (w h : Int)
    (hw : 0 ≤ w) (hh : 0 ≤ h)
    (hsw : s.viewport_width = -1) (hsh : s.viewport_height = -1) :
    resize_viewport locs (resize_viewport locs s w h).1 w h
        = ((resize_viewport locs s w h).1, [])
      ∧ (resize_viewport locs s w h).1.viewport_width = w
      ∧ (resize_viewport locs s w h).1.viewport_height = h
      ∧ resize_viewport locs s w h
          = (⟨w, h, s.frames⟩,
             [GLCall.glUniform3f locs.uniform_res (w : ℚ) (h : ℚ) 0,
              GLCall.glViewport 0 0 w h]) := by
  have hne : s.viewport_width ≠ w := by omega
  have happ : resize_viewport locs s w h
      = (⟨w, h, s.frames⟩,
         [GLCall.glUniform3f locs.uniform_res (w : ℚ) (h : ℚ) 0,
          GLCall.glViewport 0 0 w h]) := by
    unfold resize_viewport
    rw [if_pos (Or.inl hne)]
  refine ⟨?_, ?_, ?_, happ⟩
  · rw [happ]
    unfold resize_viewport
    simp
  · rw [happ]
  · rw [happ]

/-- C2 witness: the first resize from the `(-1, -1)` sentinel to 640x360
applies, and repeating it is a no-op. -/
theorem resize_viewport_dedup_witness :
    (0 ≤ (640 : Int) ∧ 0 ≤ (360 : Int)
        ∧ (⟨-1, -1, 0⟩ : MutState).viewport_width = -1
        ∧ (⟨-1, -1, 0⟩ : MutState).viewport_height = -1)
      ∧ (resize_viewport locsT (resize_viewport locsT ⟨-1, -1, 0⟩ 640 360).1 640 360
            = ((resize_viewport locsT ⟨-1, -1, 0⟩ 640 360).1, [])
          ∧ (resize_viewport locsT ⟨-1, -1, 0⟩ 640 360).1.viewport_width = 640
          ∧ (resize_viewport locsT ⟨-1, -1, 0⟩ 640 360).1.viewport_height = 360
          ∧ resize_viewport locsT ⟨-1, -1, 0⟩ 640 360
              = (⟨640, 360, 0⟩,
                 [GLCall.glUniform3f locsT.uniform_res 640 360 0,
                  GLCall.glViewport 0 0 640 360])) :=
  ⟨⟨by decide, by decide, rfl, rfl⟩,
   by
     have h := resize_viewport_dedup locsT ⟨-1, -1, 0⟩ 640 360
       (by decide) (by decide) rfl rfl
     refine ⟨h.1, h.2.1, h.2.2.1, h.2.2.2.trans ?_⟩
     decide⟩

/-- C6: when the elapsed-time uniform's location is negative (absent),
`render` issues no elapsed-time upload — its trace starts directly with
the frame-count upload; when the location is valid (non-negative), the
trace starts with the upload of the elapsed-time value to that location. -/
theorem time_uniform_absent_guard (locs : Locations) (s : MutState) (t : ℚ) :
    (locs.uniform_gtime < 0 →
        (render locs s t).2
          = GLCall.glUniform1f locs.uniform_frame ((s.frames + 1 : Int) : ℚ)
              :: draw_calls locs)
      ∧ (0 ≤ locs.uniform_gtime →
          (render locs s t).2
            = GLCall.glUniform1f locs.uniform_gtime t
                :: GLCall.glUniform1f locs.uniform_frame
                    ((s.frames + 1 : Int) : ℚ)
                  :: draw_calls locs) := by
  constructor
  · intro h
    unfold render
    rw [if_neg (by omega)]
    rfl
  · intro h
    unfold render
    rw [if_pos h]
    rfl

/-- C6 witness: with every uniform absent (`locsN`) the trace has no time
upload; with a valid time location (`locsT`, location 0) the elapsed value
is uploaded first. -/
theorem time_uniform_absent_guard_witness :
    (locsN.uniform_gtime < 0
        ∧ (render locsN ⟨-1, -1, 0⟩ 5).2
            = GLCall.glUniform1f locsN.uniform_frame 1 :: draw_calls locsN)
      ∧ (0 ≤ locsT.uniform_gtime
          ∧ (render locsT ⟨-1, -1, 0⟩ 5).2
              = GLCall.glUniform1f locsT.uniform_gtime 5
                  :: GLCall.glUniform1f locsT.uniform_frame 1
                    :: draw_calls locsT) :=
  ⟨⟨by decide,
    by
      have h := (time_uniform_absent_guard locsN ⟨-1, -1, 0⟩ 5).1 (by decide)
      exact h.trans (by decide)⟩,
   ⟨by decide,
    by
      have h := (time_uniform_absent_guard locsT ⟨-1, -1, 0⟩ 5).2 (by decide)
      exact h.trans (by decide)⟩⟩

theorem uploadsTo_draw_calls (loc : Int) (locs : Locations) :
    uploadsTo loc (draw_calls locs) = [] := rfl

theorem uploadsTo_render_frame (locs : Locations) (s : MutState) (t : ℚ)
    (hne : locs.uniform_gtime ≠ locs.uniform_frame) :
    uploadsTo locs.uniform_frame (render locs s t).2
      = [((s.frames + 1 : Int) : ℚ)] := by
  by_cases hg : 0 ≤ locs.uniform_gtime
  · simp [render, hg, uploadsTo, uploadValue, draw_calls, hne]
  · simp [render, hg, uploadsTo, uploadValue, draw_calls]

theorem renderTraces_frame_value (locs : Locations)
    (hne : locs.uniform_gtime ≠ locs.uniform_frame) :
    ∀ (ts : List ℚ) (s : MutState) (k : ℕ) (tr : List GLCall),
      (renderTraces locs s ts)[k]? = some tr →
        uploadsTo locs.uniform_frame tr = [((s.frames + k + 1 : Int) : ℚ)] := by
  intro ts
  induction ts with
  | nil => intro s k tr h; simp [renderTraces] at h
  | cons t rest ih =>
      intro s k tr h
      rw [renderTraces] at h
      cases k with
      | zero =>
          simp only [List.getElem?_cons_zero, Option.some.injEq] at h
          subst h
          rw [uploadsTo_render_frame locs s t hne]
          norm_num
      | succ k =>
          simp only [List.getElem?_cons_succ] at h
          have := ih (render locs s t).1 k tr h
          rw [this]
          have hframes : (render locs s t).1.frames = s.frames + 1 := rfl
          rw [hframes]
          norm_num
          ring

theorem renderFinal_frames (locs : Locations) :
    ∀ (ts : List ℚ) (s : MutState),
      renderFinal locs s ts
        = ⟨s.viewport_width, s.viewport_height, s.frames + ts.length⟩ := by
  intro ts
  induction ts with
  | nil => intro s; simp [renderFinal]
  | cons t rest ih =>
      intro s
      rw [renderFinal, ih]
      have : (render locs s t).1
          = ⟨s.viewport_width, s.viewport_height, s.frames + 1⟩ := rfl
      rw [this]
      simp only [List.length_cons]
      congr 1
      push_cast
      omega

/-- C1: starting from the process-initial counter `frames = 0`, the k-th
(0-based) of N successive `render` calls uploads exactly the value `k + 1`
to the frame-count uniform — i.e. 1, 2, ..., N in order — whatever elapsed
times `ts` the calls receive, and after the N calls the counter is
`N`, never having been reset. -/
theorem frame_counter_per_call (locs : Locations) (vw vh : Int) (ts : List ℚ)
    (k : ℕ) (tr : List GLCall)
    (hne : locs.uniform_gtime ≠ locs.uniform_frame)
    (hk : (renderTraces locs ⟨vw, vh, 0⟩ ts)[k]? = some tr) :
    uploadsTo locs.uniform_frame tr = [(k : ℚ) + 1]
      ∧ renderFinal locs ⟨vw, vh, 0⟩ ts = ⟨vw, vh, (ts.length : Int)⟩ := by
  constructor
  · have := renderTraces_frame_value locs hne ts ⟨vw, vh, 0⟩ k tr hk
    rw [this]
    norm_num
  · rw [renderFinal_frames locs ts ⟨vw, vh, 0⟩]
    norm_num

/-- C1 witness: with time location 0 and frame location 1, three calls at
elapsed times 3, 1, 4 upload frame value 2 on the second call and leave
the counter at 3. -/
theorem frame_counter_per_call_witness :
    (locsT.uniform_gtime ≠ locsT.uniform_frame
        ∧ (renderTraces locsT ⟨-1, -1, 0⟩ [3, 1, 4])[1]?
            = some (GLCall.glUniform1f 0 1 :: GLCall.glUniform1f 1 2
                      :: draw_calls locsT))
      ∧ (uploadsTo locsT.uniform_frame
            (GLCall.glUniform1f 0 1 :: GLCall.glUniform1f 1 2
              :: draw_calls locsT) = [2]
          ∧ renderFinal locsT ⟨-1, -1, 0⟩ [3, 1, 4] = ⟨-1, -1, 3⟩) :=
  ⟨⟨by decide, by decide⟩,
   by
     have h := frame_counter_per_call locsT (-1) (-1) [3, 1, 4] 1
       (GLCall.glUniform1f 0 1 :: GLCall.glUniform1f 1 2 :: draw_calls locsT)
       (by decide) (by decide)
     exact ⟨h.1.trans (by norm_num), h.2.trans (by decide)⟩⟩

/-- C3 counterexample: when the frame-count uniform's location is the
absent sentinel `-1`, the per-frame update still issues a `glUniform1f`
upload to that negative location, and when the resolution uniform's
location is `-1`, the resize update still issues a `glUniform3f` upload
to it — refuting "no upload call is issued for any absent uniform" for
"every update operation". -/
theorem absent_uniform_upload_cex :
    locsN.uniform_frame < 0
      ∧ (render locsN ⟨-1, -1, 0⟩ 7).2
          = GLCall.glUniform1f (-1) 1 :: draw_calls locsN
      ∧ locsN.uniform_res < 0
      ∧ (resize_viewport locsN ⟨-1, -1, 0⟩ 5 6).2
          = [GLCall.glUniform3f (-1) 5 6 0, GLCall.glViewport 0 0 5 6] := by
  decide

/-- C3 amended: only the elapsed-time upload is guarded by the
absent-sentinel check: when its location is negative, `render` issues no
elapsed-time upload; the frame-count upload is issued on every `render`
regardless of its location, and the resolution upload is issued on every
size-changing `resize_viewport` regardless of its location. -/
theorem absent_uniform_guard_amended (locs : Locations) (s : MutState)
    (t : ℚ) (w h : Int)
    (hg : locs.uniform_gtime < 0)
    (hchange : s.viewport_width ≠ w ∨ s.viewport_height ≠ h) :
    (render locs s t).2
        = GLCall.glUniform1f locs.uniform_frame ((s.frames + 1 : Int) : ℚ)
            :: draw_calls locs
      ∧ GLCall.glUniform3f locs.uniform_res (w : ℚ) (h : ℚ) 0
          ∈ (resize_viewport locs s w h).2 := by
  constructor
  · exact (time_uniform_absent_guard locs s t).1 hg
  · unfold resize_viewport
    rw [if_pos hchange]
    simp

/-- C3 amended witness: with every location absent, a `render` at elapsed
time 7 still uploads the frame count to location `-1`, and a resize to
5x6 still uploads the resolution to location `-1`. -/
theorem absent_uniform_guard_amended_witness :
    (locsN.uniform_gtime < 0
        ∧ ((⟨-1, -1, 0⟩ : MutState).viewport_width ≠ 5
            ∨ (⟨-1, -1, 0⟩ : MutState).viewport_height ≠ 6))
      ∧ ((render locsN ⟨-1, -1, 0⟩ 7).2
            = GLCall.glUniform1f locsN.uniform_frame 1 :: draw_calls locsN
          ∧ GLCall.glUniform3f locsN.uniform_res 5 6 0
              ∈ (resize_viewport locsN ⟨-1, -1, 0⟩ 5 6).2) :=
  ⟨⟨by decide, by decide⟩,
   by
     have h := absent_uniform_guard_amended locsN ⟨-1, -1, 0⟩ 7 5 6
       (by decide) (by decide)
     refine ⟨h.1.trans (by decide), ?_⟩
     have h2 := h.2
     simpa using h2⟩

/-- C4 (code bug): `main` declares `struct timespec start, cur;` and the
first loop iteration calls `render((float)timespec_diff(&start, &cur))`
before `cur` is ever written, so the very first frame's elapsed time is
computed from an uninitialized timestamp.  Modelling the garbage initial
`cur` as `{tv_sec = -1, tv_nsec = 0}` with `start = {0, 0}`, the value
fed to the time uniform on frame 1 is `-1`, which is negative — against
the claim that every elapsed value, the first frame's included, is >= 0. -/
theorem first_frame_uninitialized_elapsed :
    timespec_diff ⟨0, 0⟩ ⟨-1, 0⟩ = -1
      ∧ uploadsTo locsT.uniform_gtime
          (mainLoop locsT ⟨0, 0⟩ ⟨-1, -1, 0⟩ ⟨-1, 0⟩
             [([], ⟨1, 0⟩), ([XEvent.keyPress 113], ⟨2, 0⟩)]).2.2
          = [-1]
      ∧ (-1 : ℚ) < 0 := by
  have hdiff : timespec_diff ⟨0, 0⟩ ⟨-1, 0⟩ = (-1 : ℚ) := by
    norm_num [timespec_diff]
  refine ⟨hdiff, ?_, by norm_num⟩
  simp [mainLoop, process_events, process_events_aux, process_event,
    render, locsT, draw_calls, uploadsTo, uploadValue, XK_Escape, XK_q, hdiff]

theorem process_event_cont (locs : Locations) (s : MutState) (ev : XEvent) :
    (process_event locs s ev).1 = !(isExitEvent ev) := by
  cases ev with
  | configureNotify w h => rfl
  | keyPress k =>
      simp only [process_event, isExitEvent]
      split <;> simp_all
  | other => rfl

theorem process_events_aux_spec (locs : Locations) :
    ∀ (evs : List XEvent) (s : MutState) (done : Bool),
      (process_events_aux locs s done evs).1 = (done || hasExit evs)
        ∧ (process_events_aux locs s done evs).2.1 = (drainAll locs s evs).1
        ∧ (process_events_aux locs s done evs).2.2 = (drainAll locs s evs).2 := by
  intro evs
  induction evs with
  | nil => intro s done; simp [process_events_aux, drainAll, hasExit]
  | cons ev rest ih =>
      intro s done
      rw [process_events_aux, drainAll]
      have h1 := (ih (process_event locs s ev).2.1 (done || !(process_event locs s ev).1)).1
      have h2 := (ih (process_event locs s ev).2.1 (done || !(process_event locs s ev).1)).2.1
      have h3 := (ih (process_event locs s ev).2.1 (done || !(process_event locs s ev).1)).2.2
      refine ⟨?_, h2, by rw [h3]⟩
      rw [h1, process_event_cont]
      have : hasExit (ev :: rest) = (isExitEvent ev || hasExit rest) := by
        simp [hasExit]
      rw [this]
      cases done <;> cases isExitEvent ev <;> simp

/-- C10: `process_events` drains the whole queue — its final state and
emitted calls coincide with the unconditional drain `drainAll`, so an
event queued after an exit key press (for example a configure event, which
still triggers its resize) is processed all the same — and it reports a
stop exactly when at least one drained event was an Escape/`q` key press.
Concretely, a queue of a `q` key press followed by a configure to 100x200
still resizes to 100x200 and reports the stop. -/
theorem process_events_drains_all (locs : Locations) (s : MutState)
    (evs : List XEvent) :
    (process_events locs s evs).1 = !(hasExit evs)
      ∧ (process_events locs s evs).2.1 = (drainAll locs s evs).1
      ∧ (process_events locs s evs).2.2 = (drainAll locs s evs).2
      ∧ process_events locsT ⟨-1, -1, 0⟩
            [XEvent.keyPress 113, XEvent.configureNotify 100 200]
          = (false, ⟨100, 200, 0⟩,
             [GLCall.glUniform3f locsT.uniform_res 100 200 0,
              GLCall.glViewport 0 0 100 200]) := by
  have h := process_events_aux_spec locs evs s false
  refine ⟨?_, h.2.1, h.2.2, by decide⟩
  show (!(process_events_aux locs s false evs).1) = !hasExit evs
  rw [h.1]
  simp

theorem countDraws_append (l1 l2 : List GLCall) :
    countDraws (l1 ++ l2) = countDraws l1 + countDraws l2 := by
  unfold countDraws
  exact List.countP_append _ _ _

theorem countDraws_resize (locs : Locations) (s : MutState) (w h : Int) :
    countDraws (resize_viewport locs s w h).2 = 0 := by
  unfold resize_viewport
  split <;> rfl

theorem countDraws_process_event (locs : Locations) (s : MutState)
    (ev : XEvent) :
    countDraws (process_event locs s ev).2.2 = 0 := by
  cases ev with
  | configureNotify w h => exact countDraws_resize locs s w h
  | keyPress k =>
      simp only [process_event]
      split <;> rfl
  | other => rfl

theorem countDraws_process_events (locs : Locations) :
    ∀ (evs : List XEvent) (s : MutState) (done : Bool),
      countDraws (process_events_aux locs s done evs).2.2 = 0 := by
  intro evs
  induction evs with
  | nil => intro s done; rfl
  | cons ev rest ih =>
      intro s done
      rw [process_events_aux]
      simp only
      rw [countDraws_append, countDraws_process_event, ih]

theorem countDraws_pe (locs : Locations) (s : MutState) (evs : List XEvent) :
    countDraws (process_events locs s evs).2.2 = 0 :=
  countDraws_process_events locs evs s false

theorem countDraws_render (locs : Locations) (s : MutState) (t : ℚ) :
    countDraws (render locs s t).2 = 1 := by
  by_cases hg : 0 ≤ locs.uniform_gtime <;>
    simp [render, hg, countDraws, draw_calls, isDraw, List.countP_cons]

theorem mainLoop_stops (locs : Locations) (start : Timespec) :
    ∀ (stream : List (List XEvent × Timespec)) (s : MutState)
      (cur0 : Timespec) (i : ℕ) (batch : List XEvent × Timespec),
      stream[i]? = some batch → hasExit batch.1 = true →
      (∀ j b, j < i → stream[j]? = some b → hasExit b.1 = false) →
      (mainLoop locs start s cur0 stream).1 = true
        ∧ countDraws (mainLoop locs start s cur0 stream).2.2 = i := by
  intro stream
  induction stream with
  | nil => intro s cur0 i batch hi; simp at hi
  | cons it rest ih =>
      intro s cur0 i batch hi hexit hmin
      obtain ⟨evs, sample⟩ := it
      have hcont : (process_events locs s evs).1 = !(hasExit evs) :=
        (process_events_drains_all locs s evs).1
      cases i with
      | zero =>
          simp only [List.getElem?_cons_zero, Option.some.injEq] at hi
          subst hi
          rw [mainLoop]
          simp only [hcont, hexit]
          exact ⟨rfl, countDraws_pe locs s evs⟩
      | succ i =>
          have h0 : hasExit evs = false :=
            hmin 0 (evs, sample) (Nat.succ_pos i)
              (by simp)
          simp only [List.getElem?_cons_succ] at hi
          have hmin' : ∀ j b, j < i → rest[j]? = some b →
              hasExit b.1 = false := by
            intro j b hj hb
            exact hmin (j + 1) b (by omega)
              (by simp only [List.getElem?_cons_succ]; exact hb)
          rw [mainLoop]
          simp only [hcont, h0, Bool.not_false, if_true]
          have hrec := ih (render locs (process_events locs s evs).2.1
              (timespec_diff start cur0)).1 sample i batch hi hexit hmin'
          refine ⟨hrec.1, ?_⟩
          rw [countDraws_append, countDraws_append, countDraws_pe,
            countDraws_render, hrec.2]
          omega

/-- C5: the render loop transitions to the terminal STOPPED state exactly
on the iteration whose event drain contains an Escape/`q` key press (`i`
is the first such iteration), having issued exactly `i` draw calls — one
per earlier iteration and none on or after the stopping one; moreover any
key other than Escape and `q`, and any event type other than configure and
key press, leaves the state untouched and emits nothing. -/
theorem key_exit_stops_loop (locs : Locations) (start : Timespec)
    (s : MutState) (cur0 : Timespec)
    (stream : List (List XEvent × Timespec)) (i : ℕ)
    (batch : List XEvent × Timespec) (k : Int)
    (hi : stream[i]? = some batch) (hexit : hasExit batch.1 = true)
    (hmin : ∀ j b, j < i → stream[j]? = some b → hasExit b.1 = false)
    (hk1 : k ≠ XK_Escape) (hk2 : k ≠ XK_q) :
    (mainLoop locs start s cur0 stream).1 = true
      ∧ countDraws (mainLoop locs start s cur0 stream).2.2 = i
      ∧ process_event locs s (XEvent.keyPress k) = (true, s, [])
      ∧ process_event locs s XEvent.other = (true, s, []) := by
  have h := mainLoop_stops locs start stream s cur0 i batch hi hexit hmin
  refine ⟨h.1, h.2, ?_, rfl⟩
  simp only [process_event]
  rw [if_neg]
  push_neg
  exact ⟨hk1, hk2⟩

/-- A concrete two-iteration schedule: one inert event, then a `q` press. -/
def stream0 : List (List XEvent × Timespec) :=
  [([XEvent.other], ⟨1, 0⟩), ([XEvent.keyPress 113], ⟨2, 0⟩)]

/-- C5 witness: on `stream0` the loop draws exactly once and stops on the
second iteration, the one draining the `q` press; the key `x` (120) and
non-key events are inert. -/
theorem key_exit_stops_loop_witness :
    (stream0[1]? = some ([XEvent.keyPress 113], ⟨2, 0⟩)
        ∧ hasExit [XEvent.keyPress 113] = true
        ∧ (120 : Int) ≠ XK_Escape ∧ (120 : Int) ≠ XK_q)
      ∧ ((mainLoop locsT ⟨0, 0⟩ ⟨-1, -1, 0⟩ ⟨0, 0⟩ stream0).1 = true
          ∧ countDraws (mainLoop locsT ⟨0, 0⟩ ⟨-1, -1, 0⟩ ⟨0, 0⟩ stream0).2.2 = 1
          ∧ process_event locsT ⟨-1, -1, 0⟩ (XEvent.keyPress 120)
              = (true, ⟨-1, -1, 0⟩, [])
          ∧ process_event locsT ⟨-1, -1, 0⟩ XEvent.other
              = (true, ⟨-1, -1, 0⟩, [])) :=
  ⟨⟨by decide, by decide, by decide, by decide⟩,
   key_exit_stops_loop locsT ⟨0, 0⟩ ⟨-1, -1, 0⟩ ⟨0, 0⟩ stream0 1
     ([XEvent.keyPress 113], ⟨2, 0⟩) 120 (by decide) (by decide)
     (by
       intro j b hj hb
       have hj0 : j = 0 := by omega
       subst hj0
       have hb' : b = ([XEvent.other], (⟨1, 0⟩ : Timespec)) :=
         (Option.some.inj hb).symm
       subst hb'
       decide)
     (by decide) (by decide)⟩

theorem countTeardown_process_events (locs : Locations) :
    ∀ (evs : List XEvent) (s : MutState) (done : Bool),
      (process_events_aux locs s done evs).2.2.countP isTeardown = 0 := by
  intro evs
  induction evs with
  | nil => intro s done; rfl
  | cons ev rest ih =>
      intro s done
      rw [process_events_aux]
      simp only
      rw [List.countP_append, ih]
      have : (process_event locs s ev).2.2.countP isTeardown = 0 := by
        cases ev with
        | configureNotify w h =>
            simp only [process_event]
            unfold resize_viewport
            split <;> rfl
        | keyPress k =>
            simp only [process_event]
            split <;> rfl
        | other => rfl
      rw [this]

theorem countTeardown_pe (locs : Locations) (s : MutState)
    (evs : List XEvent) :
    (process_events locs s evs).2.2.countP isTeardown = 0 :=
  countTeardown_process_events locs evs s false

theorem countTeardown_render (locs : Locations) (s : MutState) (t : ℚ) :
    (render locs s t).2.countP isTeardown = 0 := by
  by_cases hg : 0 ≤ locs.uniform_gtime <;>
    simp [render, hg, draw_calls, isTeardown, List.countP_cons]

theorem mainLoop_no_teardown (locs : Locations) (start : Timespec) :
    ∀ (stream : List (List XEvent × Timespec)) (s : MutState)
      (cur0 : Timespec),
      (mainLoop locs start s cur0 stream).2.2.countP isTeardown = 0 := by
  intro stream
  induction stream with
  | nil => intro s cur0; rfl
  | cons it rest ih =>
      intro s cur0
      obtain ⟨evs, sample⟩ := it
      rw [mainLoop]
      simp only
      split
      · rw [List.countP_append, List.countP_append,
          countTeardown_pe, countTeardown_render, ih]
      · exact countTeardown_pe locs s evs

/-- C9: whenever the loop reaches STOPPED, the process trace is the loop's
trace followed by the teardown sequence, run exactly once (the loop itself
never emits a teardown call) and in exactly this order: destroy the shader
program, destroy the rendering context, destroy the drawing surface,
terminate the graphics driver, destroy the native window, close the
display connection — with no step conditional on another's outcome. -/
theorem shutdown_once_in_order (locs : Locations) (s : MutState)
    (start cur0 : Timespec) (stream : List (List XEvent × Timespec))
    (h : (mainLoop locs start s cur0 stream).1 = true) :
    esshader_main locs s start cur0 stream
        = some ((mainLoop locs start s cur0 stream).2.2 ++ shutdown_calls)
      ∧ shutdown_calls
          = [GLCall.glDeleteProgram, GLCall.eglDestroyContext,
             GLCall.eglDestroySurface, GLCall.eglTerminate,
             GLCall.xDestroyWindow, GLCall.xCloseDisplay]
      ∧ (mainLoop locs start s cur0 stream).2.2.countP isTeardown = 0 := by
  refine ⟨?_, rfl, mainLoop_no_teardown locs start stream s cur0⟩
  show (if (mainLoop locs start s cur0 stream).1 = true
      then some ((mainLoop locs start s cur0 stream).2.2 ++ shutdown_calls)
      else none)
    = some ((mainLoop locs start s cur0 stream).2.2 ++ shutdown_calls)
  rw [h]
  simp

/-- C9 witness: a single-iteration schedule whose batch is a `q` press
stops the loop, and the process trace ends with the six-step teardown. -/
theorem shutdown_once_in_order_witness :
    (mainLoop locsT ⟨0, 0⟩ ⟨-1, -1, 0⟩ ⟨0, 0⟩
          [([XEvent.keyPress 113], ⟨1, 0⟩)]).1 = true
      ∧ (esshader_main locsT ⟨-1, -1, 0⟩ ⟨0, 0⟩ ⟨0, 0⟩
              [([XEvent.keyPress 113], ⟨1, 0⟩)]
            = some ((mainLoop locsT ⟨0, 0⟩ ⟨-1, -1, 0⟩ ⟨0, 0⟩
                [([XEvent.keyPress 113], ⟨1, 0⟩)]).2.2 ++ shutdown_calls)
          ∧ shutdown_calls
              = [GLCall.glDeleteProgram, GLCall.eglDestroyContext,
                 GLCall.eglDestroySurface, GLCall.eglTerminate,
                 GLCall.xDestroyWindow, GLCall.xCloseDisplay]
          ∧ (mainLoop locsT ⟨0, 0⟩ ⟨-1, -1, 0⟩ ⟨0, 0⟩
                [([XEvent.keyPress 113], ⟨1, 0⟩)]).2.2.countP isTeardown = 0) :=
  ⟨by decide,
   shutdown_once_in_order locsT ⟨-1, -1, 0⟩ ⟨0, 0⟩ ⟨0, 0⟩
     [([XEvent.keyPress 113], ⟨1, 0⟩)] (by decide)⟩

end Esshader
